import Mathlib

/-!
Verification development for the Recipe Explorer CLI.

The repository ships a single source file, `src/app.js`, containing the
interactive layer.  The cache engine (`src/cache.js`) and the favorites
engine (`src/favorites.js`) are imported by `src/app.js` but are not part
of the repository snapshot, so those two engines are modelled from the
specification's description of them (each such definition carries a
doc comment saying so).  Everything else is a direct shallow embedding of
the code in `src/app.js`: user-supplied strings become function arguments,
the remote API client becomes an oracle from API calls to outcomes,
console output and engine interactions are recorded in an explicit trace,
and a thrown-and-uncaught JavaScript error becomes an explicit `threw`
field of the trace.
-/

namespace RecipeExplorer

/-- A JavaScript value as far as the application observes it: `null`
(also standing for `undefined`), a string, an array, or a recipe object
carrying its `idMeal` identifier. -/
inductive Value where
  | null : Value
  | str : String → Value
  | list : List Value → Value
  | recipe : String → Value

/-- The settled state of an awaited asynchronous operation: resolved with
a value, or rejected with an error message. -/
inductive Outcome where
  | ok : Value → Outcome
  | err : String → Outcome

/-- JavaScript truthiness of a `Value` (`null`/`undefined` and the empty
string are falsy; arrays and objects are truthy). -/
def Value.truthy : Value → Bool
  | Value.null => false
  | Value.str s => s != ""
  | Value.list _ => true
  | Value.recipe _ => true

/-- Models the JavaScript test `v.length > 0`: meaningful for strings and
arrays; on other values `.length` is `undefined` and the comparison is
false. -/
def Value.lengthPos : Value → Bool
  | Value.str s => s.length != 0
  | Value.list l => l.length != 0
  | _ => false

/-- ASCII whitespace, the fragment of JavaScript trimming relevant to the
inputs this model quantifies over. -/
def isSpaceChar (c : Char) : Bool :=
  c = ' ' || c = '\t' || c = '\n' || c = '\r'

/-- Models `String.prototype.trim` (restricted to ASCII whitespace). -/
def jsTrim (s : String) : String :=
  String.mk (((s.toList.dropWhile isSpaceChar).reverse.dropWhile isSpaceChar).reverse)

/-- Models `String.prototype.toLowerCase`, character by character. -/
def jsToLower (s : String) : String :=
  String.mk (s.toList.map Char.toLower)

/-- Keep the first occurrence of each character not yet seen, in
encounter order. -/
def setDedupAux : List Char → List Char → List Char
  | [], _ => []
  | c :: cs, seen =>
    if seen.contains c then setDedupAux cs seen
    else c :: setDedupAux cs (c :: seen)

/-- Models `Array.from(new Set(xs))` on a list of characters: keep the
first occurrence of each character, in encounter order. -/
def setDedup (l : List Char) : List Char := setDedupAux l []

/-- Insert a character into a sorted list of characters. -/
def insertChar (c : Char) : List Char → List Char
  | [] => [c]
  | d :: ds => if c ≤ d then c :: d :: ds else d :: insertChar c ds

/-- Models `Array.prototype.sort()` on an array of single characters
(code-unit order, which for these characters is code-point order). -/
def sortChars : List Char → List Char
  | [] => []
  | c :: cs => insertChar c (sortChars cs)

/-- Models `recipes[index - 1].idMeal` on a `Value`. -/
def recipeIdAt (v : Value) (index : Nat) : String :=
  match v with
  | Value.list l =>
    match l.get? (index - 1) with
    | some (Value.recipe m) => m
    | _ => ""
  | _ => ""

/-- A cache entry as the spec's data model describes it: a value and an
absolute expiry timestamp. -/
structure CacheEntry where
  value : Value
  expiresAt : Nat

/-- The cache persistence state: a mapping from keys to entries,
represented as an association list (first binding wins). -/
abbrev CacheState := List (String × CacheEntry)

/-- Look a key up in the cache state. -/
def lookupCache (key : String) : CacheState → Option CacheEntry
  | [] => none
  | (k, e) :: rest => if k = key then some e else lookupCache key rest

/-- Overwrite the binding for a key in the cache state. -/
def writeCache (key : String) (e : CacheEntry) (st : CacheState) : CacheState :=
  (key, e) :: st.filter (fun p => p.1 != key)

/-- Modelled from the spec: `src/cache.js` is not in the repository
snapshot.  On a miss or an expired entry, `getCachedOrFetch` invokes the
producer; on success it stores `{key, value, expiresAt: now + ttl}` and
returns the value, and on failure it writes nothing and propagates the
failure (spec section 4.2, steps 2 to 4). -/
def fetchAndStore (key : String) (producer : Unit → Outcome) (ttl now : Nat)
    (st : CacheState) : Outcome × CacheState × Bool :=
  match producer () with
  | Outcome.ok v => (Outcome.ok v, writeCache key ⟨v, now + ttl⟩ st, true)
  | Outcome.err msg => (Outcome.err msg, st, true)

/-- Modelled from the spec: `src/cache.js` is not in the repository
snapshot.  `getCachedOrFetch(key, producer, ttl)` at time `now`: if the
key is present and `expiresAt` is in the future, return the stored value
without invoking the producer; otherwise fall back to `fetchAndStore`
(spec section 4.2).  The third component of the result records whether
the producer was invoked. -/
def getCachedOrFetch (key : String) (producer : Unit → Outcome) (ttl now : Nat)
    (st : CacheState) : Outcome × CacheState × Bool :=
  match lookupCache key st with
  | some e =>
    if now < e.expiresAt then (Outcome.ok e.value, st, false)
    else fetchAndStore key producer ttl now st
  | none => fetchAndStore key producer ttl now st

/-- A favorite record: the recipe's id plus the stored payload
(spec section 3, FavoriteRecord). -/
structure FavRecord where
  id : String
  payload : Value

/-- The favorites persistence state, in insertion order. -/
abbrev FavState := List FavRecord

/-- Modelled from the spec: `src/favorites.js` is not in the repository
snapshot.  `addFavorite(record)` overwrites the stored payload in place
when the id already exists, and appends otherwise (spec section 4.3). -/
def addFavorite (r : FavRecord) (st : FavState) : FavState :=
  if st.any (fun q => q.id == r.id) then
    st.map (fun q => if q.id = r.id then r else q)
  else st ++ [r]

/-- Modelled from the spec: `src/favorites.js` is not in the repository
snapshot.  `removeFavorite(id)` removes the record with that id if any;
removing an absent id is a no-op, not an error (spec section 4.3). -/
def removeFavorite (recipeId : String) (st : FavState) : FavState :=
  st.filter (fun q => q.id != recipeId)

/-- The remote API operations `src/app.js` calls, with the arguments the
call site captures. -/
inductive ApiCall where
  | searchMealsByName : String → ApiCall
  | getMealById : String → ApiCall
  | searchMealsByFirstLetter : List Char → ApiCall
  | getMealsByIngredient : String → Nat → ApiCall
deriving DecidableEq

/-- The second argument a call site hands to `cache.getCachedOrFetch`:
either a zero-argument closure that will perform the given API call when
the cache engine invokes it (`deferred`), or the promise obtained by
performing the API call immediately at the call site (`invoked`). -/
inductive ProducerArg where
  | deferred : ApiCall → ProducerArg
  | invoked : ApiCall → ProducerArg
deriving DecidableEq

/-- The behavior of the remote API client: which outcome each call
settles with. -/
abbrev ApiOracle := ApiCall → Outcome

/-- What happens when the cache engine invokes its second argument as a
zero-argument function: a closure performs its API call; a promise is not
callable, so the invocation throws a TypeError. -/
def invokeProducerArg (oracle : ApiOracle) : ProducerArg → Outcome
  | ProducerArg.deferred c => oracle c
  | ProducerArg.invoked _ => Outcome.err "producer is not a function"

/-- Rejections left floating by the second argument itself: a deferred
closure runs only under the engine's `await`, so it leaves nothing
floating, while a pre-invoked promise is already running and nobody
awaits it, so its rejection is an unhandled promise rejection. -/
def floatingRejections (oracle : ApiOracle) : ProducerArg → List String
  | ProducerArg.deferred _ => []
  | ProducerArg.invoked c =>
    match oracle c with
    | Outcome.err msg => [msg]
    | Outcome.ok _ => []

/-- The cache engine applied to whatever second argument the interactive
layer passed, treating it as a zero-argument producer. -/
def getCachedOrFetchArg (key : String) (arg : ProducerArg) (oracle : ApiOracle)
    (ttl now : Nat) (st : CacheState) : Outcome × CacheState × Bool :=
  getCachedOrFetch key (fun _ => invokeProducerArg oracle arg) ttl now st

/-- The observable effects of one interactive operation: console lines,
the `(key, argument)` pairs passed to `cache.getCachedOrFetch`, the ids
passed to `favorites.addFavorite` and `favorites.removeFavorite`, the
values passed to `utils.formatRecipe` (single-recipe display) and to
`utils.formatRecipeList`, the ids delegated to a nested, un-awaited
`viewRecipeDetails` call, the unhandled promise rejections left floating,
and the error propagated to the caller if the operation threw. -/
structure AppTrace where
  console : List String := []
  cacheCalls : List (String × ProducerArg) := []
  favAdds : List String := []
  favRemoves : List String := []
  displayed : List Value := []
  listed : List Value := []
  delegated : List String := []
  unhandled : List String := []
  threw : Option String := none

/-- Embeds `searchRecipes` (src/app.js lines 45-87) for a given query.
An empty trimmed query returns after one message (lines 48-51).
Otherwise the function builds the key `search_` + lowercased query and a
deferred closure over `api.searchMealsByName(query)` (lines 65-66).  An
engine failure is caught and reported (lines 84-86).  On success the list
is displayed (line 68); if it is truthy and non-empty, line 71 reads the
bare identifier `keyInYN` (the library method is `readlineSync.keyInYN`),
which is not declared anywhere in the module, so a ReferenceError is
thrown, caught at line 84 and reported — lines 73-82 are unreachable. -/
def searchRecipes (query : String) (oracle : ApiOracle) (ttl now : Nat)
    (st : CacheState) : AppTrace × CacheState :=
  if jsTrim query = "" then
    ({ console := ["Search term cannot be empty"] }, st)
  else
    let searching := "Searching for \"" ++ query ++ "\"..."
    let cacheKey := "search_" ++ jsToLower query
    let arg := ProducerArg.deferred (ApiCall.searchMealsByName query)
    let r := getCachedOrFetchArg cacheKey arg oracle ttl now st
    match r.1 with
    | Outcome.err msg =>
      ({ console := [searching, "Error searching recipes: " ++ msg],
         cacheCalls := [(cacheKey, arg)] }, r.2.1)
    | Outcome.ok v =>
      if v.truthy && v.lengthPos then
        ({ console := [searching, "Error searching recipes: keyInYN is not defined"],
           cacheCalls := [(cacheKey, arg)], listed := [v] }, r.2.1)
      else
        ({ console := [searching], cacheCalls := [(cacheKey, arg)],
           listed := [v] }, r.2.1)

/-- Embeds `viewRecipeDetails` (src/app.js lines 98-161).  The argument
is the effective recipe id: the parameter when truthy, otherwise the line
prompted at line 100.  An empty trimmed id returns after one message
(lines 103-106).  Otherwise the function builds the key `recipe_` + id
and a deferred closure over `api.getMealById(recipeId)` (lines 122-123).
An engine failure is caught and reported (lines 158-160).  On success the
awaited result is bound to `recipes`, but the guard at line 125 reads the
undeclared identifier `recipe`, so a ReferenceError is thrown at once:
lines 126-157 (the no-recipe message, the display, every favorites
interaction and the related-recipes chain) are unreachable, and the catch
at line 158 reports the error; the function returns normally. -/
def viewRecipeDetails (recipeId : String) (oracle : ApiOracle) (ttl now : Nat)
    (st : CacheState) : AppTrace × CacheState :=
  if jsTrim recipeId = "" then
    ({ console := ["Recipe ID cannot be empty"] }, st)
  else
    let fetching := "Fetching details for recipe " ++ recipeId ++ "..."
    let cacheKey := "recipe_" ++ recipeId
    let arg := ProducerArg.deferred (ApiCall.getMealById recipeId)
    let r := getCachedOrFetchArg cacheKey arg oracle ttl now st
    match r.1 with
    | Outcome.err msg =>
      ({ console := [fetching, "Error viewing recipe details: " ++ msg],
         cacheCalls := [(cacheKey, arg)] }, r.2.1)
    | Outcome.ok _ =>
      ({ console := [fetching, "Error viewing recipe details: recipe is not defined"],
         cacheCalls := [(cacheKey, arg)] }, r.2.1)

/-- Embeds `exploreByFirstLetter` (src/app.js lines 167-209).  An empty
trimmed input returns after one message (lines 170-173).  Line 176
dedups the lowercased input in encounter order and keeps at most three
letters; line 178 prints them joined in that (unsorted) order; line 188
sorts the array in place, so both the cache key and the closure built at
line 189 see the sorted letters.  On success the list is displayed; here
the prompt uses `readlineSync.keyInYN` correctly (line 193), so when the
user asks for details the chosen recipe id is delegated to an un-awaited
`viewRecipeDetails` call (line 203), recorded in `delegated`.  `wants`
and `choice` stand for the two prompted inputs of that branch. -/
def exploreByFirstLetter (letters : String) (oracle : ApiOracle) (ttl now : Nat)
    (st : CacheState) (wants : Bool) (choice : Nat) : AppTrace × CacheState :=
  if jsTrim letters = "" then
    ({ console := ["Please enter at least one letter"] }, st)
  else
    let uniqueLetters := (setDedup (jsToLower letters).toList).take 3
    let searching := "Searching for recipes starting with: " ++
      String.intercalate ", " (uniqueLetters.map (fun c => String.mk [c])) ++ "..."
    let sorted := sortChars uniqueLetters
    let cacheKey := "letters_" ++ String.mk sorted
    let arg := ProducerArg.deferred (ApiCall.searchMealsByFirstLetter sorted)
    let r := getCachedOrFetchArg cacheKey arg oracle ttl now st
    match r.1 with
    | Outcome.err msg =>
      ({ console := [searching, "Error exploring recipes by first letter: " ++ msg],
         cacheCalls := [(cacheKey, arg)] }, r.2.1)
    | Outcome.ok v =>
      if v.truthy && v.lengthPos then
        if wants then
          ({ console := [searching], cacheCalls := [(cacheKey, arg)], listed := [v],
             delegated := [recipeIdAt v choice] }, r.2.1)
        else
          ({ console := [searching], cacheCalls := [(cacheKey, arg)],
             listed := [v] }, r.2.1)
      else
        ({ console := [searching], cacheCalls := [(cacheKey, arg)],
           listed := [v] }, r.2.1)

/-- Embeds `searchByIngredient` (src/app.js lines 215-260).  An empty
trimmed input returns after one message (lines 218-221).  Otherwise line
236 invokes `api.getMealsByIngredient(ingredient, 5000)` immediately and
passes the resulting promise — not a zero-argument closure — to
`cache.getCachedOrFetch`; the promise's rejection, if any, is awaited by
nobody and floats as an unhandled rejection.  On a miss the engine's
attempt to invoke the promise throws a TypeError, caught at line 257 and
reported.  On a hit, a string result is printed and the function returns
(lines 237-240); a non-string result is displayed (line 241), after which
line 243 reads the undeclared identifier `recipes` (the result was bound
to `result`), so a ReferenceError is thrown, caught at line 257 and
reported — lines 244-256 are unreachable. -/
def searchByIngredient (ingredient : String) (oracle : ApiOracle) (ttl now : Nat)
    (st : CacheState) : AppTrace × CacheState :=
  if jsTrim ingredient = "" then
    ({ console := ["Ingredient cannot be empty"] }, st)
  else
    let searching := "Searching for recipes with " ++ ingredient ++ "..."
    let cacheKey := "ingredient_" ++ jsToLower ingredient
    let arg := ProducerArg.invoked (ApiCall.getMealsByIngredient ingredient 5000)
    let floating := floatingRejections oracle arg
    let r := getCachedOrFetchArg cacheKey arg oracle ttl now st
    match r.1 with
    | Outcome.err msg =>
      ({ console := [searching, "Error searching by ingredient: " ++ msg],
         cacheCalls := [(cacheKey, arg)], unhandled := floating }, r.2.1)
    | Outcome.ok v =>
      match v with
      | Value.str s =>
        ({ console := [searching, s], cacheCalls := [(cacheKey, arg)],
           unhandled := floating }, r.2.1)
      | _ =>
        ({ console := [searching, "Error searching by ingredient: recipes is not defined"],
           cacheCalls := [(cacheKey, arg)], listed := [v],
           unhandled := floating }, r.2.1)

/-- Embeds `initialize` (src/app.js lines 20-36; renamed here because the
source name is not usable as a Lean identifier in this development).  The
arguments are the outcomes of `cache.initializeCache()`,
`favorites.initializeFavorites()` and `cache.clearExpiredCache()`.  Line
28 builds `Promise.all([...])` but never awaits it, and line 29 never
awaits `clearExpiredCache()`, so no rejection can reach the catch at line
32: the function returns `true` unconditionally, and any rejection floats
as an unhandled promise rejection (second component). -/
def initializeApp (cacheInit favInit clearExpired : Outcome) : Bool × List String :=
  let allFloating :=
    match cacheInit with
    | Outcome.err msg => [msg]
    | Outcome.ok _ =>
      match favInit with
      | Outcome.err msg => [msg]
      | Outcome.ok _ => []
  let clearFloating :=
    match clearExpired with
    | Outcome.err msg => [msg]
    | Outcome.ok _ => []
  (true, allFloating ++ clearFloating)

/-- The observable effects of `main`: console lines, the exit code if
`process.exit` was called on the initialization path, whether the main
menu loop was reached, and the unhandled rejections left floating. -/
structure MainTrace where
  console : List String := []
  exitCode : Option Nat := none
  reachedMenu : Bool := false
  unhandled : List String := []

/-- Embeds `main` (src/app.js lines 397-416): print the initialization
message, await `initialize()`, exit with code 1 when it returns `false`,
otherwise print the welcome message and start the menu loop. -/
def main (cacheInit favInit clearExpired : Outcome) : MainTrace :=
  let r := initializeApp cacheInit favInit clearExpired
  if r.1 then
    { console := ["Initializing Recipe Explorer...", "Welcome to Recipe Explorer!"],
      reachedMenu := true, unhandled := r.2 }
  else
    { console := ["Initializing Recipe Explorer...", "Failed to initialize. Exiting..."],
      exitCode := some 1, unhandled := r.2 }

/-- The key convention stated by the spec for letter exploration, taken
literally at its words: `letters_` followed by the sorted unique letters
of the (lowercased) input, with no truncation.  Kept separate from the
embedding so the two can be compared. -/
def lettersKeyFromSpec (input : String) : String :=
  "letters_" ++ String.mk (sortChars (setDedup (jsToLower input).toList))

/-- An API client that resolves every call with an empty recipe list. -/
def okOracle : ApiOracle := fun _ => Outcome.ok (Value.list [])

/-- An API client whose `getMealsByIngredient` rejects with a network
error while every other call resolves. -/
def ingredientFailOracle : ApiOracle := fun c =>
  match c with
  | ApiCall.getMealsByIngredient _ _ => Outcome.err "network error"
  | _ => Outcome.ok Value.null

/-- A producer that always resolves with the same recipe. -/
def beefProducer : Unit → Outcome := fun _ => Outcome.ok (Value.str "beef and broccoli")

/-- A producer that always rejects. -/
def failProducer : Unit → Outcome := fun _ => Outcome.err "fetch failed"

/-! ### Cache engine lemmas -/

theorem lookupCache_writeCache (key : String) (e : CacheEntry) (st : CacheState) :
    lookupCache key (writeCache key e st) = some e := by
  simp [lookupCache, writeCache]

/-- After a call that resolved with `v`, the state holds an entry for the
key whose stored value is `v` (unchanged on a hit, freshly written on a
successful fetch). -/
theorem lookupCache_after_ok (key : String) (p : Unit → Outcome) (ttl now : Nat)
    (st : CacheState) (v : Value)
    (h : (getCachedOrFetch key p ttl now st).1 = Outcome.ok v) :
    ∃ e, lookupCache key (getCachedOrFetch key p ttl now st).2.1 = some e ∧
      e.value = v := by
  rcases hl : lookupCache key st with _ | e
  · rcases hp : p () with w | msg
    · simp only [getCachedOrFetch, fetchAndStore, hl, hp, Outcome.ok.injEq] at h ⊢
      exact ⟨⟨w, now + ttl⟩, lookupCache_writeCache key _ st, h⟩
    · simp only [getCachedOrFetch, fetchAndStore, hl, hp] at h
      exact Outcome.noConfusion h
  · by_cases hexp : now < e.expiresAt
    · simp only [getCachedOrFetch, hl, if_pos hexp, Outcome.ok.injEq] at h ⊢
      exact ⟨e, rfl, h⟩
    · rcases hp : p () with w | msg
      · simp only [getCachedOrFetch, fetchAndStore, hl, if_neg hexp, hp,
          Outcome.ok.injEq] at h ⊢
        exact ⟨⟨w, now + ttl⟩, lookupCache_writeCache key _ st, h⟩
      · simp only [getCachedOrFetch, fetchAndStore, hl, if_neg hexp, hp] at h
        exact Outcome.noConfusion h

/-- Claim C3: two successful calls for the same key in succession, the
second within the validity window of the entry the first call left,
return the same value; the second call never invokes the producer, so the
producer runs at most once across the two calls. -/
theorem getCachedOrFetch_second_call (key : String) (p : Unit → Outcome)
    (ttl t0 t1 : Nat) (st : CacheState) (v : Value)
    (h1 : (getCachedOrFetch key p ttl t0 st).1 = Outcome.ok v)
    (h2 : ∀ e, lookupCache key (getCachedOrFetch key p ttl t0 st).2.1 = some e →
      t1 < e.expiresAt) :
    (getCachedOrFetch key p ttl t1 (getCachedOrFetch key p ttl t0 st).2.1).1
        = Outcome.ok v
    ∧ (getCachedOrFetch key p ttl t1 (getCachedOrFetch key p ttl t0 st).2.1).2.2
        = false
    ∧ (if (getCachedOrFetch key p ttl t0 st).2.2 then 1 else 0)
      + (if (getCachedOrFetch key p ttl t1
            (getCachedOrFetch key p ttl t0 st).2.1).2.2 then 1 else 0) ≤ 1 := by
  obtain ⟨e, he, hv⟩ := lookupCache_after_ok key p ttl t0 st v h1
  have ht := h2 e he
  set S := (getCachedOrFetch key p ttl t0 st).2.1 with hS
  have hsecond : getCachedOrFetch key p ttl t1 S = (Outcome.ok e.value, S, false) := by
    simp only [getCachedOrFetch, he, if_pos ht]
  refine ⟨?_, ?_, ?_⟩
  · rw [hsecond, hv]
  · rw [hsecond]
  · rw [hsecond]
    by_cases hb : (getCachedOrFetch key p ttl t0 st).2.2 <;> simp [hb]

/-- Witness for C3: the spec's scenario, one call on an empty cache at
time 0 with TTL 3600 and a second call one second later. -/
theorem getCachedOrFetch_second_call_witness :
    (getCachedOrFetch "recipe_52772" beefProducer 3600 1
        (getCachedOrFetch "recipe_52772" beefProducer 3600 0 []).2.1).1
      = Outcome.ok (Value.str "beef and broccoli")
    ∧ (getCachedOrFetch "recipe_52772" beefProducer 3600 1
        (getCachedOrFetch "recipe_52772" beefProducer 3600 0 []).2.1).2.2
      = false
    ∧ (if (getCachedOrFetch "recipe_52772" beefProducer 3600 0 []).2.2 then 1 else 0)
      + (if (getCachedOrFetch "recipe_52772" beefProducer 3600 1
            (getCachedOrFetch "recipe_52772" beefProducer 3600 0 []).2.1).2.2
          then 1 else 0) ≤ 1 := by
  refine getCachedOrFetch_second_call "recipe_52772" beefProducer 3600 0 1 []
    (Value.str "beef and broccoli") rfl ?_
  intro e he
  rw [show lookupCache "recipe_52772"
      (getCachedOrFetch "recipe_52772" beefProducer 3600 0 []).2.1
      = some ⟨Value.str "beef and broccoli", 3600⟩ from rfl] at he
  cases he
  decide

/-- Claim C4: when the producer rejects and the key has no unexpired
entry, `getCachedOrFetch` propagates the failure, leaves the cache state
unchanged (no entry is written), and does not substitute a stale value. -/
theorem getCachedOrFetch_producer_error (key : String) (p : Unit → Outcome)
    (ttl now : Nat) (st : CacheState) (msg : String)
    (hmiss : ∀ e, lookupCache key st = some e → e.expiresAt ≤ now)
    (hp : p () = Outcome.err msg) :
    getCachedOrFetch key p ttl now st = (Outcome.err msg, st, true) := by
  rcases hl : lookupCache key st with _ | e
  · simp only [getCachedOrFetch, fetchAndStore, hl, hp]
  · simp only [getCachedOrFetch, fetchAndStore, hl,
      if_neg (Nat.not_lt.mpr (hmiss e hl)), hp]

/-- Witness for C4: a rejecting producer on an empty cache. -/
theorem getCachedOrFetch_producer_error_witness :
    getCachedOrFetch "ingredient_chicken" failProducer 3600 0 []
      = (Outcome.err "fetch failed", [], true) :=
  getCachedOrFetch_producer_error "ingredient_chicken" failProducer 3600 0 []
    "fetch failed" (fun e he => by cases he) rfl

/-! ### Favorites engine lemmas -/

theorem not_mem_ids_of_any_false (x : String) (st : FavState)
    (h : ¬ st.any (fun q => q.id == x) = true) : x ∉ st.map FavRecord.id := by
  intro hx
  apply h
  rw [List.any_eq_true]
  obtain ⟨q, hq, hid⟩ := List.mem_map.mp hx
  exact ⟨q, hq, by simp [hid]⟩

theorem overwrite_map_of_not_mem (r : FavRecord) (st : FavState)
    (h : r.id ∉ st.map FavRecord.id) :
    st.map (fun q => if q.id = r.id then r else q) = st := by
  induction st with
  | nil => rfl
  | cons q qs ih =>
    simp only [List.map_cons, List.mem_cons, not_or] at h
    simp only [List.map_cons]
    rw [if_neg (fun hq => h.1 hq.symm), ih h.2]

theorem filter_ids_nil_of_not_mem (x : String) (st : FavState)
    (h : x ∉ st.map FavRecord.id) :
    st.filter (fun q => q.id == x) = [] := by
  induction st with
  | nil => rfl
  | cons q qs ih =>
    simp only [List.map_cons, List.mem_cons, not_or] at h
    rw [List.filter_cons_of_neg (by simp; exact fun hq => h.1 hq.symm), ih h.2]

theorem ids_overwrite_map (r : FavRecord) (st : FavState) :
    (st.map (fun q => if q.id = r.id then r else q)).map FavRecord.id
      = st.map FavRecord.id := by
  induction st with
  | nil => rfl
  | cons q qs ih =>
    by_cases hq : q.id = r.id
    · simp only [List.map_cons, if_pos hq, ih]
      rw [hq]
    · simp only [List.map_cons, if_neg hq, ih]

theorem filter_overwrite_map (r : FavRecord) (st : FavState)
    (hu : (st.map FavRecord.id).Nodup)
    (hp : st.any (fun q => q.id == r.id) = true) :
    (st.map (fun q => if q.id = r.id then r else q)).filter
      (fun q => q.id == r.id) = [r] := by
  induction st with
  | nil => cases hp
  | cons q qs ih =>
    simp only [List.map_cons, List.nodup_cons] at hu
    by_cases hq : q.id = r.id
    · have hqs : r.id ∉ qs.map FavRecord.id := hq ▸ hu.1
      simp only [List.map_cons, if_pos hq]
      rw [List.filter_cons_of_pos (by simp),
        overwrite_map_of_not_mem r qs hqs,
        filter_ids_nil_of_not_mem r.id qs hqs]
    · have hp2 : qs.any (fun q => q.id == r.id) = true := by
        rw [List.any_cons] at hp
        rcases Bool.or_eq_true_iff.mp hp with h1 | h2
        · exact absurd (beq_iff_eq.mp h1) hq
        · exact h2
      simp only [List.map_cons, if_neg hq]
      rw [List.filter_cons_of_neg (by simp [hq]), ih hu.2 hp2]

theorem nodup_addFavorite (r : FavRecord) (st : FavState)
    (hu : (st.map FavRecord.id).Nodup) :
    ((addFavorite r st).map FavRecord.id).Nodup := by
  unfold addFavorite
  by_cases hp : st.any (fun q => q.id == r.id) = true
  · rw [if_pos hp, ids_overwrite_map]
    exact hu
  · rw [if_neg hp, List.map_append]
    simp [List.nodup_append, hu, not_mem_ids_of_any_false r.id st hp]

theorem filter_addFavorite (r : FavRecord) (st : FavState)
    (hu : (st.map FavRecord.id).Nodup) :
    (addFavorite r st).filter (fun q => q.id == r.id) = [r] := by
  unfold addFavorite
  by_cases hp : st.any (fun q => q.id == r.id) = true
  · rw [if_pos hp]
    exact filter_overwrite_map r st hu hp
  · rw [if_neg hp, List.filter_append,
      filter_ids_nil_of_not_mem r.id st (not_mem_ids_of_any_false r.id st hp)]
    simp

/-- Claim C7: adding two records with the same id in sequence leaves
exactly one record under that id, holding the second payload, and the
at-most-one-record-per-id invariant is preserved. -/
theorem addFavorite_overwrite (r1 r2 : FavRecord) (st : FavState)
    (hu : (st.map FavRecord.id).Nodup) (hid : r1.id = r2.id) :
    ((addFavorite r2 (addFavorite r1 st)).filter (fun q => q.id == r1.id)) = [r2]
    ∧ ((addFavorite r2 (addFavorite r1 st)).map FavRecord.id).Nodup := by
  have h1 := nodup_addFavorite r1 st hu
  constructor
  · rw [hid]
    exact filter_addFavorite r2 _ h1
  · exact nodup_addFavorite r2 _ h1

/-- Witness for C7: the same id added twice with different payloads on an
empty favorites store. -/
theorem addFavorite_overwrite_witness :
    ((addFavorite ⟨"52772", Value.str "Beef Teriyaki"⟩
        (addFavorite ⟨"52772", Value.str "Teriyaki Chicken"⟩ [])).filter
      (fun q => q.id == "52772")) = [⟨"52772", Value.str "Beef Teriyaki"⟩]
    ∧ ((addFavorite ⟨"52772", Value.str "Beef Teriyaki"⟩
        (addFavorite ⟨"52772", Value.str "Teriyaki Chicken"⟩ [])).map
      FavRecord.id).Nodup :=
  addFavorite_overwrite ⟨"52772", Value.str "Teriyaki Chicken"⟩
    ⟨"52772", Value.str "Beef Teriyaki"⟩ [] (by simp) rfl

/-- Claim C8: removing an id that no stored record carries leaves the
favorites collection unchanged; `removeFavorite` is a total function, so
no error is raised. -/
theorem removeFavorite_absent (recipeId : String) (st : FavState)
    (h : ∀ r ∈ st, r.id ≠ recipeId) : removeFavorite recipeId st = st := by
  unfold removeFavorite
  apply List.filter_eq_self.mpr
  intro q hq
  simp [h q hq]

/-- Witness for C8: the spec's scenario, removing the absent id 99999
from a store holding only the record with id 52772. -/
theorem removeFavorite_absent_witness :
    removeFavorite "99999" [⟨"52772", Value.str "Teriyaki Chicken"⟩]
      = [⟨"52772", Value.str "Teriyaki Chicken"⟩] :=
  removeFavorite_absent "99999" [⟨"52772", Value.str "Teriyaki Chicken"⟩]
    (by intro r hr; rw [List.mem_singleton] at hr; subst hr; decide)

/-! ### Interactive-layer theorems -/

/-- Claim C1: the claim says every call site passes a deferred
zero-argument producer, and in particular that `searchByIngredient`
passes a deferred producer wrapping `api.getMealsByIngredient`.  The
code contradicts this: `searchRecipes` does pass a deferred closure, but
`searchByIngredient` (src/app.js line 236) invokes
`api.getMealsByIngredient(ingredient, 5000)` on the spot and passes the
resulting promise. -/
theorem searchByIngredient_passes_invoked_promise :
    (searchRecipes "chicken" okOracle 3600 0 []).1.cacheCalls
      = [("search_chicken", ProducerArg.deferred (ApiCall.searchMealsByName "chicken"))]
    ∧ (searchByIngredient "chicken" okOracle 3600 0 []).1.cacheCalls
      = [("ingredient_chicken",
          ProducerArg.invoked (ApiCall.getMealsByIngredient "chicken" 5000))] :=
  ⟨rfl, rfl⟩

/-- Claim C2: the claim says an engine initialization rejection makes
`initialize` return false and `main` exit with code 1.  The code
contradicts this: `initialize` (src/app.js line 28) never awaits the
`Promise.all`, so no rejection can reach its catch block and it returns
true for every combination of outcomes; with the cache engine rejecting,
`main` prints the welcome message and reaches the menu loop with no exit
code, and the rejection is left as an unhandled promise rejection. -/
theorem initFailure_not_fatal :
    (∀ a b c : Outcome, (initializeApp a b c).1 = true)
    ∧ (main (Outcome.err "cache init failed") (Outcome.ok Value.null)
        (Outcome.ok Value.null)).exitCode = none
    ∧ (main (Outcome.err "cache init failed") (Outcome.ok Value.null)
        (Outcome.ok Value.null)).reachedMenu = true
    ∧ (main (Outcome.err "cache init failed") (Outcome.ok Value.null)
        (Outcome.ok Value.null)).unhandled = ["cache init failed"] :=
  ⟨fun _ _ _ => rfl, rfl, rfl, rfl⟩

/-- Claim C5: the claim says every fetch failure inside the four search
operations is caught and reported by that operation.  The code
contradicts this in `searchByIngredient`: with no unexpired cache entry
and `api.getMealsByIngredient` rejecting with a network error, the
operation catches and reports only the TypeError produced by the cache
engine invoking the pre-invoked promise; the fetch failure itself never
reaches the operation's catch and is left as an unhandled promise
rejection (which terminates the process under Node's default policy). -/
theorem searchByIngredient_fetch_failure_unreported :
    ((searchByIngredient "chicken" ingredientFailOracle 3600 0 []).1.unhandled
      = ["network error"])
    ∧ ((searchByIngredient "chicken" ingredientFailOracle 3600 0 []).1.console
      = ["Searching for recipes with chicken...",
         "Error searching by ingredient: producer is not a function"])
    ∧ ((searchByIngredient "chicken" ingredientFailOracle 3600 0 []).1.threw
      = none) :=
  ⟨rfl, rfl, rfl⟩

/-- Claim C6, counterexample: on the input `dcba` the key the code
passes is `letters_bcd` — the input's unique letters are first truncated
to three and only then sorted — whereas the claim's `letters_` followed
by the sorted unique letters of the input would be `letters_abcd`. -/
theorem lettersKey_truncation_counterexample :
    ((exploreByFirstLetter "dcba" okOracle 3600 0 [] false 0).1.cacheCalls.map
        Prod.fst = ["letters_bcd"])
    ∧ lettersKeyFromSpec "dcba" = "letters_abcd"
    ∧ ("letters_bcd" : String) ≠ "letters_abcd" :=
  ⟨by decide, by decide, by decide⟩

/-- Claim C6, amended: for every non-empty trimmed input, the keys the
four operations pass to the cache engine are `search_` + lowercased
query, `recipe_` + id, `letters_` + the sorted form of the first (at
most) three unique letters of the lowercased input, and `ingredient_` +
lowercased ingredient. -/
theorem cacheKey_convention (q rid ls ing : String) (oracle : ApiOracle)
    (ttl now : Nat) (st : CacheState) (wants : Bool) (choice : Nat)
    (hq : ¬ jsTrim q = "") (hr : ¬ jsTrim rid = "") (hl : ¬ jsTrim ls = "")
    (hi : ¬ jsTrim ing = "") :
    (searchRecipes q oracle ttl now st).1.cacheCalls.map Prod.fst
      = ["search_" ++ jsToLower q]
    ∧ (viewRecipeDetails rid oracle ttl now st).1.cacheCalls.map Prod.fst
      = ["recipe_" ++ rid]
    ∧ (exploreByFirstLetter ls oracle ttl now st wants choice).1.cacheCalls.map
        Prod.fst
      = ["letters_" ++ String.mk (sortChars ((setDedup (jsToLower ls).toList).take 3))]
    ∧ (searchByIngredient ing oracle ttl now st).1.cacheCalls.map Prod.fst
      = ["ingredient_" ++ jsToLower ing] := by
  refine ⟨?_, ?_, ?_, ?_⟩
  · simp only [searchRecipes, if_neg hq]
    split
    · rfl
    · split <;> rfl
  · simp only [viewRecipeDetails, if_neg hr]
    split <;> rfl
  · simp only [exploreByFirstLetter, if_neg hl]
    split
    · rfl
    · split
      · split <;> rfl
      · rfl
  · simp only [searchByIngredient, if_neg hi]
    split
    · rfl
    · split <;> rfl

/-- Witness for the amended C6, at concrete inputs for all four
operations (including one with more than three unique letters). -/
theorem cacheKey_convention_witness :
    (searchRecipes "Chicken Soup" okOracle 3600 0 []).1.cacheCalls.map Prod.fst
      = ["search_" ++ jsToLower "Chicken Soup"]
    ∧ (viewRecipeDetails "52772" okOracle 3600 0 []).1.cacheCalls.map Prod.fst
      = ["recipe_" ++ "52772"]
    ∧ (exploreByFirstLetter "dcba" okOracle 3600 0 [] false 0).1.cacheCalls.map
        Prod.fst
      = ["letters_" ++ String.mk (sortChars ((setDedup (jsToLower "dcba").toList).take 3))]
    ∧ (searchByIngredient "Chicken" okOracle 3600 0 []).1.cacheCalls.map Prod.fst
      = ["ingredient_" ++ jsToLower "Chicken"] :=
  cacheKey_convention "Chicken Soup" "52772" "dcba" "Chicken" okOracle 3600 0 []
    false 0 (by decide) (by decide) (by decide) (by decide)

/-- Claim C9: whenever the cached-or-fetched lookup resolves,
`viewRecipeDetails` displays nothing, never calls `addFavorite` or
`removeFavorite`, reports the ReferenceError caused by reading the
undeclared identifier `recipe`, and returns normally to its caller. -/
theorem viewRecipeDetails_dead_code (recipeId : String) (oracle : ApiOracle)
    (ttl now : Nat) (st : CacheState) (v : Value)
    (hne : ¬ jsTrim recipeId = "")
    (hok : (getCachedOrFetchArg ("recipe_" ++ recipeId)
        (ProducerArg.deferred (ApiCall.getMealById recipeId)) oracle ttl now st).1
      = Outcome.ok v) :
    ((viewRecipeDetails recipeId oracle ttl now st).1.displayed = [])
    ∧ ((viewRecipeDetails recipeId oracle ttl now st).1.favAdds = [])
    ∧ ((viewRecipeDetails recipeId oracle ttl now st).1.favRemoves = [])
    ∧ ((viewRecipeDetails recipeId oracle ttl now st).1.threw = none)
    ∧ ((viewRecipeDetails recipeId oracle ttl now st).1.console
      = ["Fetching details for recipe " ++ recipeId ++ "...",
         "Error viewing recipe details: recipe is not defined"]) := by
  simp [viewRecipeDetails, if_neg hne, hok]

/-- Witness for C9: a concrete id whose lookup resolves with an empty
recipe list. -/
theorem viewRecipeDetails_dead_code_witness :
    ((viewRecipeDetails "52772" okOracle 3600 0 []).1.displayed = [])
    ∧ ((viewRecipeDetails "52772" okOracle 3600 0 []).1.favAdds = [])
    ∧ ((viewRecipeDetails "52772" okOracle 3600 0 []).1.favRemoves = [])
    ∧ ((viewRecipeDetails "52772" okOracle 3600 0 []).1.threw = none)
    ∧ ((viewRecipeDetails "52772" okOracle 3600 0 []).1.console
      = ["Fetching details for recipe " ++ "52772" ++ "...",
         "Error viewing recipe details: recipe is not defined"]) :=
  viewRecipeDetails_dead_code "52772" okOracle 3600 0 [] (Value.list [])
    (by decide) rfl

/-- Claim C10: on an input whose trimmed form is empty, each of the
three prompting operations returns right after its message: the trace
records no cache-engine call, no API call (no producer argument exists
at all), no favorites call, and the cache state is unchanged. -/
theorem empty_input_early_return (s : String) (oracle : ApiOracle)
    (ttl now : Nat) (st : CacheState) (h : jsTrim s = "") :
    searchRecipes s oracle ttl now st
      = ({ console := ["Search term cannot be empty"] }, st)
    ∧ viewRecipeDetails s oracle ttl now st
      = ({ console := ["Recipe ID cannot be empty"] }, st)
    ∧ searchByIngredient s oracle ttl now st
      = ({ console := ["Ingredient cannot be empty"] }, st) := by
  refine ⟨?_, ?_, ?_⟩ <;>
    simp only [searchRecipes, viewRecipeDetails, searchByIngredient, if_pos h]

/-- Witness for C10: a whitespace-only input. -/
theorem empty_input_early_return_witness :
    searchRecipes "   " okOracle 3600 0 []
      = ({ console := ["Search term cannot be empty"] }, [])
    ∧ viewRecipeDetails "   " okOracle 3600 0 []
      = ({ console := ["Recipe ID cannot be empty"] }, [])
    ∧ searchByIngredient "   " okOracle 3600 0 []
      = ({ console := ["Ingredient cannot be empty"] }, []) :=
  empty_input_early_return "   " okOracle 3600 0 [] (by decide)

end RecipeExplorer
